import Mathlib

/-!
# Verification of the e-commerce crawler (config.py / fetcher.py)

Shallow embedding of the crawler's URL classifier, fetch retry logic and
traversal engine, together with proofs about the behaviour the specification
describes.

Modelling conventions:
* Python strings are Lean `String`s (regex matching works on `String.data`).
* The regular expressions of `config.py` use only literals, the classes
  `[^/]`, `[\?&]` and `\d`, the quantifiers `?` and `+` (always on a single
  token) and the `$` anchor, so they are embedded as data (`RPattern`) and
  executed by a small backtracking matcher whose boolean result agrees with
  `re.search(pattern, url, re.IGNORECASE)`.
* HTTP and HTML parsing are external collaborators: a crawl is driven by a
  function `pages : String → Option (List String)` giving, for each URL, the
  list of href strings of the fetched page (`none` = fetch failure / empty
  body, which `process_page` treats identically).
* Python `set`s are embedded as insertion-ordered duplicate-free lists; the
  concurrent `asyncio.gather` fan-out is determinized as a sequential
  left-to-right fold (the structured join of the source: all children complete
  before the parent continues).
* The recursion of `crawl_category_pages` terminates in the source because the
  visited set grows; the embedding uses an explicit fuel parameter, and every
  theorem below holds for all fuel values.
* A ghost event log (`Ev`) records each fetch and each recursive invocation
  (with parent and child depth); it instruments the state without influencing
  it.
-/

/-! ## Regex engine (embedding of `re.search(pattern, url, re.IGNORECASE)`) -/

/-- A single-character matcher of the pattern language used in `config.py`:
a literal (matched case-insensitively, for `re.IGNORECASE`), the class `\d`,
the class `[^/]`, or an explicit character alternative such as `[\?&]`. -/
inductive RTok where
  | lit (c : Char)
  | digit
  | notSlash
  | anyOf (cs : List Char)
deriving DecidableEq

/-- A pattern element: a single token, an optional token (`t?`), or a
one-or-more repetition (`t+`). -/
inductive RElem where
  | one (t : RTok)
  | opt (t : RTok)
  | plus (t : RTok)
deriving DecidableEq

/-- A regular expression of `config.py`: a sequence of elements, optionally
anchored at the end of the string (`$`). Capture groups only affect the
returned match object, not the boolean used by the classifiers, so they are
dropped. -/
structure RPattern where
  elems : List RElem
  atEnd : Bool
deriving DecidableEq

def matchTok : RTok → Char → Bool
  | RTok.lit a, c => a.toLower == c.toLower
  | RTok.digit, c => c.isDigit
  | RTok.notSlash, c => c != '/'
  | RTok.anyOf cs, c => cs.contains c

/-- Backtracking continuation for `t+` / `t*`: either the rest of the pattern
(`k`) matches here, or one more `t` is consumed. -/
def starCont (t : RTok) (k : List Char → Bool) : List Char → Bool
  | [] => k []
  | c :: s => k (c :: s) || (matchTok t c && starCont t k s)

/-- Does the element list (with optional `$` anchor) match a prefix of `s`? -/
def matchHere : List RElem → Bool → List Char → Bool
  | [], atEnd, s => !atEnd || s.isEmpty
  | RElem.one t :: rest, atEnd, s =>
      match s with
      | [] => false
      | c :: s2 => matchTok t c && matchHere rest atEnd s2
  | RElem.opt t :: rest, atEnd, s =>
      matchHere rest atEnd s ||
        (match s with
         | [] => false
         | c :: s2 => matchTok t c && matchHere rest atEnd s2)
  | RElem.plus t :: rest, atEnd, s =>
      match s with
      | [] => false
      | c :: s2 => matchTok t c && starCont t (fun s3 => matchHere rest atEnd s3) s2

/-- `re.search`: the pattern may match starting at any position. -/
def searchFrom (p : RPattern) : List Char → Bool
  | [] => matchHere p.elems p.atEnd []
  | c :: s => matchHere p.elems p.atEnd (c :: s) || searchFrom p s

/-- Boolean result of `re.search(pattern, url, re.IGNORECASE)`. -/
def regexSearch (p : RPattern) (url : String) : Bool :=
  searchFrom p url.data

/-- Literal characters of a pattern. -/
def lits (s : String) : List RElem :=
  s.data.map (fun c => RElem.one (RTok.lit c))

/-! ## Configuration (`config.py`) -/

/-- `CrawlerConfig` (config.py).  `request_delay`, `timeout` and
`num_workers` configure real-time waiting and the parsing thread pool and
do not influence the functional behaviour modelled here, so they are
omitted. -/
structure CrawlerConfig where
  max_pages_per_domain : Nat
  max_concurrent_requests : Nat
  max_connections_per_host : Nat
  batch_size : Nat
  max_retries : Nat
  verbose : Bool
  product_patterns : List RPattern
  category_patterns : List RPattern
  pagination_patterns : List RPattern
  max_depth : Nat
deriving DecidableEq

/-- The default `product_patterns` installed by `CrawlerConfig.__post_init__`:
`/product[s]?/`, `/item/`, `/p/`, `/dp/`, `-p-\d+`,
`/[^/]+/[^/]+/[^/]+-\d+/buy$`, `/\d+/buy$`. -/
def defaultProductPatterns : List RPattern :=
  [ ⟨lits "/product" ++ [RElem.opt (RTok.lit 's')] ++ lits "/", false⟩,
    ⟨lits "/item/", false⟩,
    ⟨lits "/p/", false⟩,
    ⟨lits "/dp/", false⟩,
    ⟨lits "-p-" ++ [RElem.plus RTok.digit], false⟩,
    ⟨lits "/" ++ [RElem.plus RTok.notSlash] ++ lits "/" ++ [RElem.plus RTok.notSlash] ++
      lits "/" ++ [RElem.plus RTok.notSlash] ++ lits "-" ++ [RElem.plus RTok.digit] ++
      lits "/buy", true⟩,
    ⟨lits "/" ++ [RElem.plus RTok.digit] ++ lits "/buy", true⟩ ]

/-- The default `category_patterns`:
`/category/`, `/c/`, `/collections?/`, `/shop/`, `/[^/]+/[^/]+$`. -/
def defaultCategoryPatterns : List RPattern :=
  [ ⟨lits "/category/", false⟩,
    ⟨lits "/c/", false⟩,
    ⟨lits "/collection" ++ [RElem.opt (RTok.lit 's')] ++ lits "/", false⟩,
    ⟨lits "/shop/", false⟩,
    ⟨lits "/" ++ [RElem.plus RTok.notSlash] ++ lits "/" ++ [RElem.plus RTok.notSlash], true⟩ ]

/-- The default `pagination_patterns`:
`page=(\d+)`, `p=(\d+)`, `/page/(\d+)`, `/p/(\d+)`, `offset=(\d+)`,
`[\?&]page=(\d+)`. -/
def defaultPaginationPatterns : List RPattern :=
  [ ⟨lits "page=" ++ [RElem.plus RTok.digit], false⟩,
    ⟨lits "p=" ++ [RElem.plus RTok.digit], false⟩,
    ⟨lits "/page/" ++ [RElem.plus RTok.digit], false⟩,
    ⟨lits "/p/" ++ [RElem.plus RTok.digit], false⟩,
    ⟨lits "offset=" ++ [RElem.plus RTok.digit], false⟩,
    ⟨[RElem.one (RTok.anyOf ['?', '&'])] ++ lits "page=" ++ [RElem.plus RTok.digit], false⟩ ]

/-- The configuration produced by `CrawlerConfig()` with all defaults
(`__post_init__` fills in the three pattern lists). -/
def defaultConfig : CrawlerConfig :=
  { max_pages_per_domain := 50
    max_concurrent_requests := 10
    max_connections_per_host := 10
    batch_size := 50
    max_retries := 2
    verbose := true
    product_patterns := defaultProductPatterns
    category_patterns := defaultCategoryPatterns
    pagination_patterns := defaultPaginationPatterns
    max_depth := 3 }

/-! ## URL classifier (`UrlsFetcher.is_product_url` etc.) -/

def is_product_url (cfg : CrawlerConfig) (url : String) : Bool :=
  cfg.product_patterns.any (fun p => regexSearch p url)

def is_category_url (cfg : CrawlerConfig) (url : String) : Bool :=
  cfg.category_patterns.any (fun p => regexSearch p url)

def is_pagination_url (cfg : CrawlerConfig) (url : String) : Bool :=
  cfg.pagination_patterns.any (fun p => regexSearch p url)

/-! ## Fetch client (`UrlsFetcher.fetch_url`)

The HTTP layer is abstracted by `resp : Nat → Outcome`: the outcome of the
request made with retry counter `i`.  `Outcome.failure` stands for any
transport-level exception (connection error, timeout, malformed response),
which the source catches in its `except` clause. -/

/-- Outcome of one HTTP request: a status code with a body, or a raised
transport exception. -/
inductive Outcome where
  | status (code : Nat) (body : String)
  | failure
deriving DecidableEq

/-- `UrlsFetcher.fetch_url` (fetcher.py lines 45-71), as a function of the
response behaviour.  Returns the result (`none` = the Python `return None`),
the list of backoff sleeps performed (`2 ** retry_count` seconds each; the
flat `request_delay` sleep is rate limiting, not backoff, and is not
recorded), and the number of HTTP requests issued. -/
def fetch_url (cfg : CrawlerConfig) (resp : Nat → Outcome) (retry_count : Nat) :
    Option String × List Nat × Nat :=
  match resp retry_count with
  | Outcome.status code body =>
      if code = 200 then (some body, [], 1)
      else if h : code = 429 ∧ retry_count < cfg.max_retries then
        let r := fetch_url cfg resp (retry_count + 1)
        (r.1, 2 ^ retry_count :: r.2.1, r.2.2 + 1)
      else (none, [], 1)
  | Outcome.failure =>
      if h : retry_count < cfg.max_retries then
        let r := fetch_url cfg resp (retry_count + 1)
        (r.1, 2 ^ retry_count :: r.2.1, r.2.2 + 1)
      else (none, [], 1)
termination_by cfg.max_retries - retry_count
decreasing_by
  · omega
  · omega

/-- A server that always answers with the given status code. -/
def constStatus (code : Nat) : Nat → Outcome := fun _ => Outcome.status code ""

/-! ## Shared crawl state and helpers -/

/-- Ghost log events: one `fetch` per call of `fetch_url` from
`process_page`/`crawl_domain`, and one `recurse` per recursive
`crawl_category_pages` task created (subcategory recursion when `isSub`,
pagination recursion otherwise), with the parent's depth and the depth the
child is invoked at. -/
inductive Ev where
  | fetch (url : String)
  | recurse (isSub : Bool) (url : String) (parentDepth childDepth : Nat)
deriving DecidableEq

/-- The per-domain mutable state of `UrlsFetcher`: `visited_categories[domain]`,
`product_urls[domain]` and `visited_urls[domain]` (Python sets, embedded as
insertion-ordered duplicate-free lists), plus the ghost event log. -/
structure DomState where
  visited_categories : List String
  product_urls : List String
  visited_urls : List String
  log : List Ev
deriving DecidableEq

/-- `set.add`: insertion-ordered embedding of adding to a Python set. -/
def insertIfAbsent (l : List String) (x : String) : List String :=
  if x ∈ l then l else l ++ [x]

/-- `set.update`: fold `insertIfAbsent` over the new elements. -/
def listUnion (l new : List String) : List String :=
  new.foldl insertIfAbsent l

/-- `str.replace(pat, '')` for a single occurrence scan position, driven by a
fuel that bounds the number of characters examined (`s.length` suffices). -/
def replaceAllAux (pat : List Char) : Nat → List Char → List Char
  | 0, s => s
  | fuel + 1, s =>
      match s with
      | [] => []
      | c :: s2 =>
          if pat ≠ [] ∧ s.take pat.length = pat then
            replaceAllAux pat fuel (s.drop pat.length)
          else c :: replaceAllAux pat fuel s2

/-- Python `str.replace(pat, '')`: remove every (left-to-right,
non-overlapping) occurrence of `pat`. -/
def replaceAll (pat s : List Char) : List Char :=
  replaceAllAux pat s.length s

/-- Python `str.rstrip('/')`. -/
def rstripSlash (s : String) : String :=
  String.mk ((s.data.reverse.dropWhile (fun c => c = '/')).reverse)

/-- `domain.replace('https://', '').replace('http://', '').rstrip('/')`
(fetcher.py line 184). -/
def normalizeDomain (d : String) : String :=
  rstripSlash (String.mk (replaceAll "http://".data (replaceAll "https://".data d.data)))

/-- Host part of a (scheme-stripped) domain string. -/
def hostOf (domain : String) : String :=
  String.mk (domain.data.takeWhile (fun c => c ≠ '/'))

/-- `str.startswith`, on the character lists. -/
def strStartsWith (s pre : String) : Bool :=
  decide (s.data.take pre.data.length = pre.data)

/-- `urllib.parse.urljoin(f"https://{domain}", href)`, specialised to the href
shapes the crawler meets: absolute URLs pass through, root-relative hrefs
replace the path of the base, and other hrefs are resolved against the host
root (the base URL `https://{domain}` has an empty path when the domain is a
bare hostname, which is the case this embedding is faithful for). -/
def urljoin (domain href : String) : String :=
  if strStartsWith href "https://" || strStartsWith href "http://" then href
  else if strStartsWith href "/" then "https://" ++ hostOf domain ++ href
  else "https://" ++ hostOf domain ++ "/" ++ href

/-- Python slice `l[:n]` for an `int` slice bound `n`, including the negative
case `l[:-k] = l[:len(l)-k]` (clamped at zero). -/
def pySlice (l : List String) (n : Int) : List String :=
  if 0 ≤ n then l.take n.toNat else l.take ((l.length : Int) + n).toNat

/-- The subcategory candidates actually scheduled for recursion by
`crawl_category_pages` (fetcher.py lines 147-151):
`remaining_pages = max_pages_per_domain - len(visited_categories[domain])`,
then `subcategories[:remaining_pages]` filtered by the not-yet-visited
check performed at task-creation time. -/
def scheduledSubcategories (cfg : CrawlerConfig) (visited subcategories : List String) :
    List String :=
  (pySlice subcategories ((cfg.max_pages_per_domain : Int) - (visited.length : Int))).filter
    (fun u => u ∉ visited)

/-- `[lst[i:i+batch_size] for i in range(0, len(lst), batch_size)]`
(fetcher.py lines 208-209). -/
def chunkList (batch_size : Nat) (l : List String) : List (List String) :=
  (List.range ((l.length + batch_size - 1) / batch_size)).map
    (fun i => (l.drop (i * batch_size)).take batch_size)

/-! ## Page processing (`UrlsFetcher.process_page`) -/

/-- The `if self.is_product_url(full_url)` branch of the link loop
(fetcher.py lines 97-98). -/
def stepProds (cfg : CrawlerConfig) (prods : List String) (full : String) : List String :=
  if is_product_url cfg full then insertIfAbsent prods full else prods

/-- The `elif self.is_category_url(full_url) and full_url not in
self.visited_categories[domain]` branch (fetcher.py lines 101-102): because
of the `elif`, a product-classified link is never considered as a
subcategory candidate. -/
def stepSubs (cfg : CrawlerConfig) (visited : List String) (subs : List String)
    (full : String) : List String :=
  if is_product_url cfg full then subs
  else if is_category_url cfg full ∧ full ∉ visited then insertIfAbsent subs full
  else subs

/-- The independent `if self.is_pagination_url(full_url)` check
(fetcher.py lines 104-106). -/
def stepPags (cfg : CrawlerConfig) (pags : List String) (full : String) : List String :=
  if is_pagination_url cfg full then insertIfAbsent pags full else pags

/-- The classification of one extracted link (the body of the `for link in
links` loop, fetcher.py lines 92-106), after resolving the href against the
domain. -/
def stepLink (cfg : CrawlerConfig) (visited : List String) (domain : String)
    (acc : List String × List String × List String) (href : String) :
    List String × List String × List String :=
  (stepProds cfg acc.1 (urljoin domain href),
   stepSubs cfg visited acc.2.1 (urljoin domain href),
   stepPags cfg acc.2.2 (urljoin domain href))

/-- Left-to-right processing of all extracted links. -/
def processLinks (cfg : CrawlerConfig) (visited : List String) (domain : String) :
    List String → List String × List String × List String →
    List String × List String × List String
  | [], acc => acc
  | href :: rest, acc => processLinks cfg visited domain rest (stepLink cfg visited domain acc href)

/-- `UrlsFetcher.process_page` (fetcher.py lines 73-112): fetch the page and
classify every link, returning `(products, subcategories, pagination_links)`.
A failed fetch (or falsy body) yields three empty collections. -/
def process_page (pages : String → Option (List String)) (cfg : CrawlerConfig)
    (visited : List String) (domain page_url : String) :
    List String × List String × List String :=
  match pages page_url with
  | none => ([], [], [])
  | some hrefs => processLinks cfg visited domain hrefs ([], [], [])

/-! ## Traversal engine (`UrlsFetcher.crawl_category_pages`) -/

/-- Mark `url` visited (fetcher.py line 136) and record the fetch issued
immediately afterwards by `process_page`. -/
def visitAndFetch (st : DomState) (url : String) : DomState :=
  { st with visited_categories := st.visited_categories ++ [url]
            log := st.log ++ [Ev.fetch url] }

/-- `self.product_urls[domain].update(products)` (fetcher.py line 139). -/
def addProducts (st : DomState) (products : List String) : DomState :=
  { st with product_urls := listUnion st.product_urls products }

/-- Ghost: record one `recurse` event per scheduled child task. -/
def logRecurse (st : DomState) (isSub : Bool) (urls : List String) (p c : Nat) : DomState :=
  { st with log := st.log ++ urls.map (fun u => Ev.recurse isSub u p c) }

/-- Subcategory recursion step of `crawl_category_pages` (fetcher.py lines
145-154): only when `depth < max_depth` and candidates exist; candidates are
truncated to the remaining page budget and the children recurse at
`depth + 1`.  `recurse` is the recursive call at the child's fuel. -/
def crawlSubPhase (recurse : String → Nat → DomState → DomState) (cfg : CrawlerConfig)
    (depth : Nat) (subs : List String) (st2 : DomState) : DomState :=
  if depth < cfg.max_depth ∧ subs ≠ [] then
    let sched := scheduledSubcategories cfg st2.visited_categories subs
    sched.foldl (fun s u => recurse u (depth + 1) s)
      (logRecurse st2 true sched depth (depth + 1))
  else st2

/-- Pagination recursion step of `crawl_category_pages` (fetcher.py lines
156-165): unconditionally on every unvisited pagination link, at the same
depth, with no budget truncation. -/
def crawlPagPhase (recurse : String → Nat → DomState → DomState)
    (depth : Nat) (pags : List String) (st3 : DomState) : DomState :=
  if pags ≠ [] then
    let sched2 := pags.filter (fun u => u ∉ st3.visited_categories)
    sched2.foldl (fun s u => recurse u depth s)
      (logRecurse st3 false sched2 depth depth)
  else st3

/-- `UrlsFetcher.crawl_category_pages` (fetcher.py lines 129-165).  The two
`asyncio.gather` fan-outs are determinized as sequential folds; `fuel` bounds
the recursion depth of the embedding (the source terminates because the
visited set grows), and every theorem below holds for every fuel. -/
def crawl_category_pages (pages : String → Option (List String)) (cfg : CrawlerConfig)
    (fuel : Nat) (domain start_url : String) (depth : Nat) (st : DomState) : DomState :=
  match fuel with
  | 0 => st
  | fuel2 + 1 =>
    if start_url ∈ st.visited_categories ∨ depth > cfg.max_depth then st
    else
      let stv := visitAndFetch st start_url
      let r := process_page pages cfg stv.visited_categories domain start_url
      crawlPagPhase (fun u d s => crawl_category_pages pages cfg fuel2 domain u d s) depth r.2.2
        (crawlSubPhase (fun u d s => crawl_category_pages pages cfg fuel2 domain u d s) cfg depth
          r.2.1 (addProducts stv r.1))

/-- `UrlsFetcher.process_batch` (fetcher.py lines 168-178): crawl every
not-yet-visited URL of the batch at depth 0. -/
def process_batch (pages : String → Option (List String)) (cfg : CrawlerConfig)
    (fuel : Nat) (domain : String) (urls : List String) (st : DomState) : DomState :=
  (urls.filter (fun u => u ∉ st.visited_categories)).foldl
    (fun s u => crawl_category_pages pages cfg fuel domain u 0 s) st

/-- Sequential run of the category batches (the `for batch in category_batches`
loop, fetcher.py lines 211-212). -/
def run_batches (pages : String → Option (List String)) (cfg : CrawlerConfig)
    (fuel : Nat) (domain : String) : List (List String) → DomState → DomState
  | [], st => st
  | b :: bs, st => run_batches pages cfg fuel domain bs (process_batch pages cfg fuel domain b st)

/-- `UrlsFetcher.crawl_domain` (fetcher.py lines 180-212): normalize the
domain, fetch the root page unless the base URL is in `visited_urls[domain]`,
collect the category-classified links of the root page, and crawl them in
batches of `batch_size`. -/
def crawl_domain (pages : String → Option (List String)) (cfg : CrawlerConfig)
    (fuel : Nat) (domain0 : String) (st : DomState) : DomState :=
  let domain := normalizeDomain domain0
  let base_url := "https://" ++ domain
  if base_url ∈ st.visited_urls then st
  else
    let st1 : DomState := { st with log := st.log ++ [Ev.fetch base_url] }
    match pages base_url with
    | none => st1
    | some hrefs =>
        let category_urls := hrefs.foldl
          (fun acc href =>
            let full := urljoin domain href
            if is_category_url cfg full ∧ full ∉ acc then acc ++ [full] else acc) []
        run_batches pages cfg fuel domain (chunkList cfg.batch_size category_urls) st1

/-! ## Concrete crawl scenarios -/

/-- The empty initial state of `UrlsFetcher.__init__` (for one domain). -/
def st0 : DomState := ⟨[], [], [], []⟩

/-- End-to-end scenario of the specification: the root of `shop.test` links to
the category `/c/shoes`, which links to the product `/p/42` and the pagination
link `/c/shoes?page=2`; the latter links to nothing new, and the product page
has no links. -/
def pages1 : String → Option (List String) := fun u =>
  if u = "https://shop.test" then some ["/c/shoes"]
  else if u = "https://shop.test/c/shoes" then some ["/p/42", "/c/shoes?page=2"]
  else if u = "https://shop.test/c/shoes?page=2" then some []
  else if u = "https://shop.test/p/42" then some []
  else none

/-- The end-to-end run. -/
def runC1 : DomState := crawl_domain pages1 defaultConfig 10 "shop.test" st0

/-- A page whose single link is both product-classified (`/product[s]?/`) and
category-classified (`/[^/]+/[^/]+$`). -/
def pagesC3 : String → Option (List String) := fun u =>
  if u = "https://x.com/start" then some ["/product/shoes"] else none

/-- Configuration for the depth-bound scenario: `max_depth = 0`. -/
def cfgDepth0 : CrawlerConfig := { defaultConfig with max_depth := 0 }

/-- Configuration for the budget-truncation scenario: `max_pages_per_domain = 1`. -/
def cfgBudget : CrawlerConfig := { defaultConfig with max_pages_per_domain := 1 }

/-- Depth-bound scenario: the category page `/c/a` links to the subcategory
`/c/b` and to the pagination link `/c/a?page=2`. -/
def pagesC5 : String → Option (List String) := fun u =>
  if u = "https://d.test/c/a" then some ["/c/b", "/c/a?page=2"]
  else if u = "https://d.test/c/a?page=2" then some []
  else none

/-- Crawl of `/c/a` at depth 0 with `max_depth = 0`: subcategory recursion is
stopped, pagination recursion proceeds. -/
def runC5 : DomState := crawl_category_pages pagesC5 cfgDepth0 10 "d.test" "https://d.test/c/a" 0 st0

/-- A domain string that carries a path (the crawler accepts full URLs as
domains): the root page of `shop.test/c/x` links to itself with a
root-relative href, and the base URL is itself category-classified. -/
def pagesC6 : String → Option (List String) := fun u =>
  if u = "https://shop.test/c/x" then some ["/c/x"] else none

/-- Crawl of the path-carrying domain: the base URL is fetched by
`crawl_domain` without being marked visited anywhere, then fetched a second
time by the category recursion. -/
def runC6 : DomState := crawl_domain pagesC6 defaultConfig 10 "shop.test/c/x" st0

/-- The URLs of the `fetch` events of a log. -/
def fetches (l : List Ev) : List String :=
  l.filterMap (fun e => match e with | Ev.fetch u => some u | _ => none)

/-! ## Invariants of the traversal engine

`Extends cfg st st2` captures everything a single (recursive) run of
`crawl_category_pages` does to the state: the visited set grows by
appending, `visited_urls` is untouched, and the new log events are
well-formed — the freshly fetched URLs are pairwise distinct, were not
visited before, are visited afterwards (marked before their fetch), and
every recursion event respects the depth discipline of the source. -/

/-- Well-formedness of a single ghost event: subcategory recursion happens
only from a parent at `depth < max_depth` and invokes the child at
`depth + 1`; pagination recursion invokes the child at the parent's own
depth. -/
def goodEv (cfg : CrawlerConfig) : Ev → Bool
  | Ev.fetch _ => true
  | Ev.recurse true _ p c => decide (p < cfg.max_depth) && decide (c = p + 1)
  | Ev.recurse false _ p c => decide (c = p)

/-- State evolution invariant of one `crawl_category_pages` run. -/
structure Extends (cfg : CrawlerConfig) (st st2 : DomState) : Prop where
  visited_ext : ∃ v, st2.visited_categories = st.visited_categories ++ v
  vurls_eq : st2.visited_urls = st.visited_urls
  log_ext : ∃ L, st2.log = st.log ++ L ∧ (fetches L).Nodup ∧
      (∀ u ∈ fetches L, u ∉ st.visited_categories ∧ u ∈ st2.visited_categories) ∧
      (∀ e ∈ L, goodEv cfg e = true)

theorem extends_refl (cfg : CrawlerConfig) (st : DomState) : Extends cfg st st := by
  refine ⟨⟨[], by simp⟩, rfl, ⟨[], by simp, ?_, ?_, ?_⟩⟩ <;> simp [fetches]

theorem fetches_append (l1 l2 : List Ev) : fetches (l1 ++ l2) = fetches l1 ++ fetches l2 := by
  simp [fetches]

theorem extends_trans {cfg : CrawlerConfig} {s1 s2 s3 : DomState}
    (h1 : Extends cfg s1 s2) (h2 : Extends cfg s2 s3) : Extends cfg s1 s3 := by
  obtain ⟨⟨v1, hv1⟩, hu1, ⟨L1, hl1, hn1, hf1, hg1⟩⟩ := h1
  obtain ⟨⟨v2, hv2⟩, hu2, ⟨L2, hl2, hn2, hf2, hg2⟩⟩ := h2
  refine ⟨⟨v1 ++ v2, by rw [hv2, hv1, List.append_assoc]⟩, hu2.trans hu1,
    ⟨L1 ++ L2, by rw [hl2, hl1, List.append_assoc], ?_, ?_, ?_⟩⟩
  · rw [fetches_append]
    refine List.Nodup.append hn1 hn2 (List.disjoint_left.mpr ?_)
    intro u hu1m hu2m
    exact (hf2 u hu2m).1 ((hf1 u hu1m).2)
  · intro u hu
    rw [fetches_append, List.mem_append] at hu
    rcases hu with hu | hu
    · exact ⟨(hf1 u hu).1, hv2 ▸ List.mem_append_left _ (hf1 u hu).2⟩
    · refine ⟨fun hc => (hf2 u hu).1 (hv1 ▸ List.mem_append_left _ hc), (hf2 u hu).2⟩
  · intro e he
    rw [List.mem_append] at he
    rcases he with he | he
    · exact hg1 e he
    · exact hg2 e he

theorem extends_visitAndFetch {cfg : CrawlerConfig} {st : DomState} {url : String}
    (h : url ∉ st.visited_categories) : Extends cfg st (visitAndFetch st url) := by
  refine ⟨⟨[url], by simp [visitAndFetch]⟩, by simp [visitAndFetch],
    ⟨[Ev.fetch url], by simp [visitAndFetch], by simp [fetches], ?_, by simp [goodEv]⟩⟩
  intro u hu
  simp [fetches] at hu
  subst hu
  exact ⟨h, by simp [visitAndFetch]⟩

theorem extends_addProducts {cfg : CrawlerConfig} (st : DomState) (ps : List String) :
    Extends cfg st (addProducts st ps) := by
  refine ⟨⟨[], by simp [addProducts]⟩, by simp [addProducts],
    ⟨[], by simp [addProducts], ?_, ?_, ?_⟩⟩ <;> simp [fetches]

theorem fetches_map_recurse (b : Bool) (urls : List String) (p c : Nat) :
    fetches (urls.map (fun u => Ev.recurse b u p c)) = [] := by
  induction urls with
  | nil => rfl
  | cons u us ih =>
    rw [List.map_cons]
    rw [show fetches (Ev.recurse b u p c :: us.map (fun v => Ev.recurse b v p c)) =
      fetches (us.map (fun v => Ev.recurse b v p c)) from rfl]
    exact ih

theorem extends_logRecurse {cfg : CrawlerConfig} {st : DomState} {b : Bool}
    {urls : List String} {p c : Nat}
    (h : ∀ u ∈ urls, goodEv cfg (Ev.recurse b u p c) = true) :
    Extends cfg st (logRecurse st b urls p c) := by
  refine ⟨⟨[], by simp [logRecurse]⟩, by simp [logRecurse],
    ⟨urls.map (fun u => Ev.recurse b u p c), by simp [logRecurse], ?_, ?_, ?_⟩⟩
  · rw [fetches_map_recurse]; exact List.nodup_nil
  · rw [fetches_map_recurse]; intro u hu; exact absurd hu (List.not_mem_nil u)
  · intro e he
    rw [List.mem_map] at he
    obtain ⟨u, hu, rfl⟩ := he
    exact h u hu

theorem extends_foldl {cfg : CrawlerConfig} {f : DomState → String → DomState}
    (hf : ∀ s u, Extends cfg s (f s u)) :
    ∀ (urls : List String) (st : DomState), Extends cfg st (urls.foldl f st) := by
  intro urls
  induction urls with
  | nil => intro st; exact extends_refl cfg st
  | cons u us ih => intro st; exact extends_trans (hf st u) (ih (f st u))

theorem extends_subPhase {cfg : CrawlerConfig} {recurse : String → Nat → DomState → DomState}
    (hrec : ∀ u d s, Extends cfg s (recurse u d s)) (depth : Nat) (subs : List String)
    (st2 : DomState) : Extends cfg st2 (crawlSubPhase recurse cfg depth subs st2) := by
  rw [crawlSubPhase]
  split
  next h =>
    refine extends_trans (extends_logRecurse ?_) (extends_foldl (fun s u => hrec u (depth + 1) s) _ _)
    intro u _
    simp [goodEv, h.1]
  next => exact extends_refl cfg st2

theorem extends_pagPhase {cfg : CrawlerConfig} {recurse : String → Nat → DomState → DomState}
    (hrec : ∀ u d s, Extends cfg s (recurse u d s)) (depth : Nat) (pags : List String)
    (st3 : DomState) : Extends cfg st3 (crawlPagPhase recurse depth pags st3) := by
  rw [crawlPagPhase]
  split
  next =>
    refine extends_trans (extends_logRecurse ?_) (extends_foldl (fun s u => hrec u depth s) _ _)
    intro u _
    simp [goodEv]
  next => exact extends_refl cfg st3

/-- Main invariant: every run of `crawl_category_pages`, from any state, at
any depth and with any fuel, extends the state in the disciplined way
described by `Extends`. -/
theorem extends_crawl (pages : String → Option (List String)) (cfg : CrawlerConfig) :
    ∀ (fuel : Nat) (domain url : String) (depth : Nat) (st : DomState),
      Extends cfg st (crawl_category_pages pages cfg fuel domain url depth st) := by
  intro fuel
  induction fuel with
  | zero => intro domain url depth st; exact extends_refl cfg st
  | succ fuel2 ih =>
    intro domain url depth st
    rw [crawl_category_pages]
    split
    next => exact extends_refl cfg st
    next h =>
      have hnv : url ∉ st.visited_categories := fun hc => h (Or.inl hc)
      refine extends_trans
        (extends_trans (extends_visitAndFetch hnv) (extends_addProducts _ _))
        (extends_trans (extends_subPhase (fun u d s => ih domain u d s) _ _ _)
          (extends_pagPhase (fun u d s => ih domain u d s) _ _ _))

/-- `process_batch` satisfies the same invariant. -/
theorem extends_process_batch (pages : String → Option (List String)) (cfg : CrawlerConfig)
    (fuel : Nat) (domain : String) (urls : List String) (st : DomState) :
    Extends cfg st (process_batch pages cfg fuel domain urls st) :=
  extends_foldl (fun s u => extends_crawl pages cfg fuel domain u 0 s) _ st

/-- `run_batches` satisfies the same invariant. -/
theorem extends_run_batches (pages : String → Option (List String)) (cfg : CrawlerConfig)
    (fuel : Nat) (domain : String) :
    ∀ (bs : List (List String)) (st : DomState), Extends cfg st (run_batches pages cfg fuel domain bs st) := by
  intro bs
  induction bs with
  | nil => intro st; exact extends_refl cfg st
  | cons b bs2 ih =>
    intro st
    exact extends_trans (extends_process_batch pages cfg fuel domain b st) (ih _)

/-- `crawl_domain` never writes `visited_urls` (the root fetch is logged but
records nothing in any set). -/
theorem crawl_domain_vurls (pages : String → Option (List String)) (cfg : CrawlerConfig)
    (fuel : Nat) (domain0 : String) (st : DomState) :
    (crawl_domain pages cfg fuel domain0 st).visited_urls = st.visited_urls := by
  rw [crawl_domain]
  split
  next => rfl
  next =>
    split
    next => rfl
    next hrefs heq =>
      exact (extends_run_batches pages cfg fuel _ _ _).vurls_eq

/-! ## Fetch client retry behaviour -/

/-- A non-200, non-429 response is not retried: `fetch_url` falls through both
the `if response.status == 200` and the `elif response.status == 429 and ...`
branches straight to `return None`, with no backoff sleep. -/
theorem fetch_url_other_status (cfg : CrawlerConfig) (resp : Nat → Outcome) (rc code : Nat)
    (body : String) (hresp : resp rc = Outcome.status code body)
    (h200 : code ≠ 200) (h429 : code ≠ 429) :
    fetch_url cfg resp rc = (none, [], 1) := by
  rw [fetch_url, hresp]
  dsimp only
  rw [if_neg h200, dif_neg (fun hc => h429 hc.1)]

/-- When every response is retriable (a 429 status or a transport failure),
`fetch_url` sleeps `2 ^ i` before each retry and gives up after
`max_retries` retries. -/
theorem fetch_url_exhaust (cfg : CrawlerConfig) (resp : Nat → Outcome)
    (hresp : ∀ i, resp i = Outcome.failure ∨ ∃ b, resp i = Outcome.status 429 b) :
    ∀ (k rc : Nat), cfg.max_retries - rc = k →
      fetch_url cfg resp rc =
        (none, (List.range' rc k).map (fun i => 2 ^ i), k + 1) := by
  intro k
  induction k with
  | zero =>
    intro rc hk
    have hge : ¬ rc < cfg.max_retries := by omega
    rcases hresp rc with hf | ⟨b, hb⟩
    · rw [fetch_url, hf]
      dsimp only
      rw [dif_neg hge]
      simp
    · rw [fetch_url, hb]
      dsimp only
      rw [if_neg (by omega), dif_neg (fun hc => hge hc.2)]
      simp
  | succ k2 ih =>
    intro rc hk
    have hlt : rc < cfg.max_retries := by omega
    have hrec := ih (rc + 1) (by omega)
    rcases hresp rc with hf | ⟨b, hb⟩
    · rw [fetch_url, hf]
      dsimp only
      rw [dif_pos hlt, hrec]
      simp [List.range'_succ]
    · rw [fetch_url, hb]
      dsimp only
      rw [if_neg (by omega), dif_pos ⟨rfl, hlt⟩, hrec]
      simp [List.range'_succ]

/-! ## Regex lemmas for the product/pagination overlap of `/p/` URLs -/

theorem matchHere_nil_false (s : List Char) : matchHere [] false s = true := by
  simp [matchHere]

theorem starCont_top (t : RTok) (s : List Char) :
    starCont t (fun s3 => matchHere [] false s3) s = true := by
  cases s with
  | nil => simp [starCont, matchHere_nil_false]
  | cons c s2 => simp [starCont, matchHere_nil_false]

theorem searchFrom_of_matchHere (p : RPattern) (t : List Char)
    (h : matchHere p.elems p.atEnd t = true) : searchFrom p t = true := by
  cases t with
  | nil => rw [searchFrom]; exact h
  | cons c s => rw [searchFrom, h]; simp

theorem searchFrom_append (p : RPattern) (s t : List Char) (h : searchFrom p t = true) :
    searchFrom p (s ++ t) = true := by
  induction s with
  | nil => exact h
  | cons c s2 ih => rw [List.cons_append, searchFrom, ih]; simp

theorem pslash_data (a b : String) (c : Char) :
    (a ++ "/p/" ++ String.mk [c] ++ b).data = a.data ++ ('/' :: 'p' :: '/' :: c :: b.data) := by
  rw [String.data_append, String.data_append, String.data_append]
  rw [show ("/p/" : String).data = ['/', 'p', '/'] from rfl,
      show (String.mk [c]).data = [c] from rfl]
  simp

theorem search_product_pslash (a b : String) (c : Char) :
    regexSearch ⟨lits "/p/", false⟩ (a ++ "/p/" ++ String.mk [c] ++ b) = true := by
  rw [regexSearch, pslash_data]
  apply searchFrom_append
  apply searchFrom_of_matchHere
  show matchHere (lits "/p/") false ('/' :: 'p' :: '/' :: c :: b.data) = true
  show matchHere [] false (c :: b.data) = true
  exact matchHere_nil_false _

theorem search_pagination_pslash (a b : String) (c : Char) (hc : c.isDigit = true) :
    regexSearch ⟨lits "/p/" ++ [RElem.plus RTok.digit], false⟩
      (a ++ "/p/" ++ String.mk [c] ++ b) = true := by
  rw [regexSearch, pslash_data]
  apply searchFrom_append
  apply searchFrom_of_matchHere
  show matchHere (lits "/p/" ++ [RElem.plus RTok.digit]) false
    ('/' :: 'p' :: '/' :: c :: b.data) = true
  show (matchTok RTok.digit c && starCont RTok.digit (fun s3 => matchHere [] false s3) b.data)
    = true
  rw [show matchTok RTok.digit c = c.isDigit from rfl, hc, Bool.true_and]
  exact starCont_top _ _

/-! ## Characterization of `process_page`'s link classification -/

theorem mem_insertIfAbsent (l : List String) (x : String) : x ∈ insertIfAbsent l x := by
  rw [insertIfAbsent]
  split
  next h => exact h
  next => simp

theorem insertIfAbsent_mem_of_mem {l : List String} {y : String} (x : String) (h : y ∈ l) :
    y ∈ insertIfAbsent l x := by
  rw [insertIfAbsent]
  split
  next => exact h
  next => exact List.mem_append_left _ h

theorem mem_of_mem_insertIfAbsent {l : List String} {x y : String}
    (h : y ∈ insertIfAbsent l x) : y ∈ l ∨ y = x := by
  rw [insertIfAbsent] at h
  split at h
  next => exact Or.inl h
  next =>
    rcases List.mem_append.mp h with h2 | h2
    · exact Or.inl h2
    · simp at h2; exact Or.inr h2

theorem stepProds_mono (cfg : CrawlerConfig) (prods : List String) (full : String) :
    prods ⊆ stepProds cfg prods full := by
  rw [stepProds]
  split
  next => exact fun y hy => insertIfAbsent_mem_of_mem _ hy
  next => exact fun y hy => hy

theorem stepSubs_mono (cfg : CrawlerConfig) (visited subs : List String) (full : String) :
    subs ⊆ stepSubs cfg visited subs full := by
  rw [stepSubs]
  split
  next => exact fun y hy => hy
  next =>
    split
    next => exact fun y hy => insertIfAbsent_mem_of_mem _ hy
    next => exact fun y hy => hy

theorem stepPags_mono (cfg : CrawlerConfig) (pags : List String) (full : String) :
    pags ⊆ stepPags cfg pags full := by
  rw [stepPags]
  split
  next => exact fun y hy => insertIfAbsent_mem_of_mem _ hy
  next => exact fun y hy => hy

theorem stepProds_adds {cfg : CrawlerConfig} (prods : List String) {full : String}
    (h : is_product_url cfg full = true) : full ∈ stepProds cfg prods full := by
  rw [stepProds, if_pos h]
  exact mem_insertIfAbsent _ _

theorem stepSubs_adds {cfg : CrawlerConfig} {visited : List String} (subs : List String)
    {full : String} (hp : is_product_url cfg full = false)
    (hcat : is_category_url cfg full = true) (hnv : full ∉ visited) :
    full ∈ stepSubs cfg visited subs full := by
  rw [stepSubs, if_neg (by simp [hp]), if_pos ⟨hcat, hnv⟩]
  exact mem_insertIfAbsent _ _

theorem stepPags_adds {cfg : CrawlerConfig} (pags : List String) {full : String}
    (h : is_pagination_url cfg full = true) : full ∈ stepPags cfg pags full := by
  rw [stepPags, if_pos h]
  exact mem_insertIfAbsent _ _

theorem mem_stepSubs {cfg : CrawlerConfig} {visited subs : List String} {full u : String}
    (h : u ∈ stepSubs cfg visited subs full) :
    u ∈ subs ∨ (is_product_url cfg u = false ∧ is_category_url cfg u = true ∧ u ∉ visited) := by
  rw [stepSubs] at h
  split at h
  next => exact Or.inl h
  next hp =>
    split at h
    next hc =>
      rcases mem_of_mem_insertIfAbsent h with h2 | h2
      · exact Or.inl h2
      · subst h2
        exact Or.inr ⟨Bool.not_eq_true _ ▸ (by simpa using hp), hc.1, hc.2⟩
    next => exact Or.inl h

theorem processLinks_mono (cfg : CrawlerConfig) (visited : List String) (domain : String) :
    ∀ (hrefs : List String) (acc : List String × List String × List String),
      acc.1 ⊆ (processLinks cfg visited domain hrefs acc).1 ∧
      acc.2.1 ⊆ (processLinks cfg visited domain hrefs acc).2.1 ∧
      acc.2.2 ⊆ (processLinks cfg visited domain hrefs acc).2.2 := by
  intro hrefs
  induction hrefs with
  | nil =>
    intro acc
    exact ⟨fun y hy => hy, fun y hy => hy, fun y hy => hy⟩
  | cons href rest ih =>
    intro acc
    have hr := ih (stepLink cfg visited domain acc href)
    refine ⟨fun y hy => hr.1 ?_, fun y hy => hr.2.1 ?_, fun y hy => hr.2.2 ?_⟩
    · exact stepProds_mono cfg acc.1 (urljoin domain href) hy
    · exact stepSubs_mono cfg visited acc.2.1 (urljoin domain href) hy
    · exact stepPags_mono cfg acc.2.2 (urljoin domain href) hy

theorem processLinks_adds (cfg : CrawlerConfig) (visited : List String) (domain : String) :
    ∀ (hrefs : List String) (acc : List String × List String × List String) (href : String),
      href ∈ hrefs →
      (is_product_url cfg (urljoin domain href) = true →
        urljoin domain href ∈ (processLinks cfg visited domain hrefs acc).1) ∧
      (is_pagination_url cfg (urljoin domain href) = true →
        urljoin domain href ∈ (processLinks cfg visited domain hrefs acc).2.2) ∧
      (is_product_url cfg (urljoin domain href) = false →
        is_category_url cfg (urljoin domain href) = true →
        urljoin domain href ∉ visited →
        urljoin domain href ∈ (processLinks cfg visited domain hrefs acc).2.1) := by
  intro hrefs
  induction hrefs with
  | nil => intro acc href hmem; exact absurd hmem (List.not_mem_nil href)
  | cons head rest ih =>
    intro acc href hmem
    rcases List.mem_cons.mp hmem with heq | hmem2
    · subst heq
      have hm := processLinks_mono cfg visited domain rest (stepLink cfg visited domain acc href)
      refine ⟨fun hp => hm.1 ?_, fun hpag => hm.2.2 ?_, fun hp hc hv => hm.2.1 ?_⟩
      · exact stepProds_adds acc.1 hp
      · exact stepPags_adds acc.2.2 hpag
      · exact stepSubs_adds acc.2.1 hp hc hv
    · exact ih (stepLink cfg visited domain acc head) href hmem2

theorem processLinks_subs_char (cfg : CrawlerConfig) (visited : List String) (domain : String) :
    ∀ (hrefs : List String) (acc : List String × List String × List String) (u : String),
      u ∈ (processLinks cfg visited domain hrefs acc).2.1 →
      u ∈ acc.2.1 ∨
        (is_product_url cfg u = false ∧ is_category_url cfg u = true ∧ u ∉ visited) := by
  intro hrefs
  induction hrefs with
  | nil => intro acc u hu; exact Or.inl hu
  | cons head rest ih =>
    intro acc u hu
    rcases ih (stepLink cfg visited domain acc head) u hu with h2 | h2
    · exact mem_stepSubs h2
    · exact Or.inr h2

/-! ## Claim theorems -/

/-- Claim C1 (counterexample): in the end-to-end scenario the claim's expected
visited set is wrong on two counts — the root URL `https://shop.test` is never
recorded in `visited_categories` (the root fetch marks nothing), and
`https://shop.test/p/42` IS recorded, because `/p/42` matches the pagination
pattern `/p/(\d+)` and is therefore crawled as a pagination link. -/
theorem end_to_end_cex :
    "https://shop.test" ∉ runC1.visited_categories ∧
    "https://shop.test/p/42" ∈ runC1.visited_categories := by
  exact ⟨by decide, by decide⟩

/-- Claim C1 (amended): running `crawl_domain("shop.test")` on the scenario
graph yields `ProductURLSet("shop.test") = {https://shop.test/p/42}` and
`VisitedSet("shop.test") = {https://shop.test/c/shoes,
https://shop.test/c/shoes?page=2, https://shop.test/p/42}` — the root URL is
fetched but never recorded in any visited set (`visited_urls` stays empty),
and the product URL is additionally visited via pagination recursion. -/
theorem end_to_end_scenario :
    runC1.product_urls = ["https://shop.test/p/42"] ∧
    runC1.visited_categories =
      ["https://shop.test/c/shoes", "https://shop.test/c/shoes?page=2",
       "https://shop.test/p/42"] ∧
    runC1.visited_urls = [] := by
  exact ⟨by decide, by decide, by decide⟩

/-- Claim C2 (counterexample): it is not the case that every always-non-200
server makes `fetch_url` retry with backoff up to `max_retries` (here 2, so
sleeps `[1, 2]` and 3 requests): a server constantly returning 404 gets no
retry at all — `fetch_url` returns `None` after a single request, because
only 429 and transport exceptions are retried. -/
theorem fetch_url_non200_cex :
    ¬ (∀ (resp : Nat → Outcome), (∀ i b, resp i ≠ Outcome.status 200 b) →
        fetch_url defaultConfig resp 0 = (none, [1, 2], 3)) := by
  intro h
  have h404 := h (constStatus 404) (by intro i b; simp [constStatus])
  have hval : fetch_url defaultConfig (constStatus 404) 0 = (none, [], 1) :=
    fetch_url_other_status defaultConfig (constStatus 404) 0 404 "" rfl
      (by decide) (by decide)
  rw [hval] at h404
  simp at h404

/-- Claim C2 (amended): `fetch_url` never propagates an exception (the model
is total, the `except` clause feeding the failure branch); an HTTP status
other than 200 and 429 is returned as absent immediately, with no retry and
no backoff sleep; a 429 status or a transport-level failure is retried with
exponential backoff `2 ^ retry_count` seconds up to `max_retries` attempts
and then gives up with absent. -/
theorem fetch_url_retry_policy :
    (∀ (cfg : CrawlerConfig) (resp : Nat → Outcome) (rc code : Nat) (body : String),
      resp rc = Outcome.status code body → code ≠ 200 → code ≠ 429 →
      fetch_url cfg resp rc = (none, [], 1)) ∧
    (∀ (cfg : CrawlerConfig) (resp : Nat → Outcome),
      (∀ i, resp i = Outcome.failure ∨ ∃ b, resp i = Outcome.status 429 b) →
      fetch_url cfg resp 0 =
        (none, (List.range cfg.max_retries).map (fun i => 2 ^ i), cfg.max_retries + 1)) := by
  constructor
  · exact fetch_url_other_status
  · intro cfg resp h
    have hx := fetch_url_exhaust cfg resp h cfg.max_retries 0 (by omega)
    rw [hx, List.range_eq_range']

/-- Witness for C2 (amended), at the concrete servers `constStatus 404` and
`constStatus 429` with the default configuration (`max_retries = 2`). -/
theorem fetch_url_retry_policy_witness :
    fetch_url defaultConfig (constStatus 404) 0 = (none, [], 1) ∧
    fetch_url defaultConfig (constStatus 429) 0 = (none, [1, 2], 3) :=
  ⟨fetch_url_retry_policy.1 defaultConfig (constStatus 404) 0 404 "" rfl
      (by decide) (by decide),
   fetch_url_retry_policy.2 defaultConfig (constStatus 429) (fun i => Or.inr ⟨"", rfl⟩)⟩

/-- Claim C3 (counterexample): the link `/product/shoes` on `x.com` is both
product-classified and category-classified and unvisited, yet `process_page`
puts it only in the product collection and not among the subcategory
candidates — the source's `elif` gives product classification precedence,
contradicting the claimed independence. -/
theorem process_page_elif_cex :
    is_product_url defaultConfig "https://x.com/product/shoes" = true ∧
    is_category_url defaultConfig "https://x.com/product/shoes" = true ∧
    "https://x.com/product/shoes" ∈
      (process_page pagesC3 defaultConfig [] "x.com" "https://x.com/start").1 ∧
    "https://x.com/product/shoes" ∉
      (process_page pagesC3 defaultConfig [] "x.com" "https://x.com/start").2.1 := by
  exact ⟨by decide, by decide, by decide, by decide⟩

/-- Claim C3 (amended): for every link extracted during page processing,
product-classified links are added to the products unconditionally and
pagination-classified links are collected independently; but a
category-classified unvisited link becomes a subcategory candidate only when
it is NOT product-classified — a link that is both product- and
category-classified goes to the product set only. -/
theorem process_page_classification (pages : String → Option (List String))
    (cfg : CrawlerConfig) (visited : List String) (domain page_url : String)
    (hrefs : List String) (href : String) (hp : pages page_url = some hrefs)
    (hmem : href ∈ hrefs) :
    (is_product_url cfg (urljoin domain href) = true →
      urljoin domain href ∈ (process_page pages cfg visited domain page_url).1) ∧
    (is_pagination_url cfg (urljoin domain href) = true →
      urljoin domain href ∈ (process_page pages cfg visited domain page_url).2.2) ∧
    (is_product_url cfg (urljoin domain href) = false →
      is_category_url cfg (urljoin domain href) = true →
      urljoin domain href ∉ visited →
      urljoin domain href ∈ (process_page pages cfg visited domain page_url).2.1) ∧
    (is_product_url cfg (urljoin domain href) = true →
      urljoin domain href ∉ (process_page pages cfg visited domain page_url).2.1) := by
  have hpp : process_page pages cfg visited domain page_url
      = processLinks cfg visited domain hrefs ([], [], []) := by
    rw [process_page, hp]
  rw [hpp]
  have ha := processLinks_adds cfg visited domain hrefs ([], [], []) href hmem
  refine ⟨ha.1, ha.2.1, ha.2.2, ?_⟩
  intro hprod hmemsub
  rcases processLinks_subs_char cfg visited domain hrefs ([], [], []) _ hmemsub with h2 | h2
  · exact absurd h2 (List.not_mem_nil _)
  · rw [hprod] at h2
    exact absurd h2.1 (by decide)

/-- Witness for C3 (amended), at the concrete page of `pagesC3`. -/
theorem process_page_classification_witness :
    "https://x.com/product/shoes" ∈
      (process_page pagesC3 defaultConfig [] "x.com" "https://x.com/start").1 ∧
    "https://x.com/product/shoes" ∉
      (process_page pagesC3 defaultConfig [] "x.com" "https://x.com/start").2.1 :=
  ⟨(process_page_classification pagesC3 defaultConfig [] "x.com" "https://x.com/start"
      ["/product/shoes"] "/product/shoes" rfl (by decide)).1 (by decide),
   (process_page_classification pagesC3 defaultConfig [] "x.com" "https://x.com/start"
      ["/product/shoes"] "/product/shoes" rfl (by decide)).2.2.2 (by decide)⟩

/-- Claim C4 (counterexample): it is not true that at every visited-set state
at most `max_pages_per_domain - |VisitedSet|` subcategory candidates are
scheduled: with `max_pages_per_domain = 1` and 3 visited pages (reachable,
since pagination expansion and root batches are not budget-capped), the
remaining budget is `-2`, yet the Python negative slice `[: -2]` schedules 1
candidate. -/
theorem budget_truncation_cex :
    ¬ (∀ (cfg : CrawlerConfig) (visited subs : List String),
        ((scheduledSubcategories cfg visited subs).length : Int) ≤
          (cfg.max_pages_per_domain : Int) - (visited.length : Int)) := by
  intro h
  exact absurd (h cfgBudget ["v1", "v2", "v3"] ["s1", "s2", "s3"]) (by decide)

/-- Claim C4 (amended): when `|VisitedSet| ≤ max_pages_per_domain`, at most
`remaining_budget = max_pages_per_domain - |VisitedSet|` subcategory
candidates are scheduled — exactly the not-yet-visited members of that prefix
of the iteration order, the rest dropped, not deferred; when `|VisitedSet|`
exceeds the budget, the Python negative slice instead schedules all but the
last `|VisitedSet| - max_pages_per_domain` candidates. -/
theorem budget_truncation (cfg : CrawlerConfig) (visited subs : List String) :
    (visited.length ≤ cfg.max_pages_per_domain →
      scheduledSubcategories cfg visited subs =
        (subs.take (cfg.max_pages_per_domain - visited.length)).filter (fun u => u ∉ visited) ∧
      (scheduledSubcategories cfg visited subs).length ≤
        cfg.max_pages_per_domain - visited.length) ∧
    (cfg.max_pages_per_domain < visited.length →
      scheduledSubcategories cfg visited subs =
        (subs.take (subs.length - (visited.length - cfg.max_pages_per_domain))).filter
          (fun u => u ∉ visited)) := by
  constructor
  · intro hle
    have htn : ((cfg.max_pages_per_domain : Int) - (visited.length : Int)).toNat
        = cfg.max_pages_per_domain - visited.length := by omega
    have heq : scheduledSubcategories cfg visited subs =
        (subs.take (cfg.max_pages_per_domain - visited.length)).filter (fun u => u ∉ visited) := by
      rw [scheduledSubcategories, pySlice, if_pos (by omega), htn]
    refine ⟨heq, ?_⟩
    rw [heq]
    calc ((subs.take (cfg.max_pages_per_domain - visited.length)).filter
            (fun u => u ∉ visited)).length
        ≤ (subs.take (cfg.max_pages_per_domain - visited.length)).length :=
          List.length_filter_le _ _
      _ ≤ cfg.max_pages_per_domain - visited.length := by
          rw [List.length_take]; omega
  · intro hlt
    have htn : ((subs.length : Int) +
          ((cfg.max_pages_per_domain : Int) - (visited.length : Int))).toNat
        = subs.length - (visited.length - cfg.max_pages_per_domain) := by omega
    rw [scheduledSubcategories, pySlice, if_neg (by omega), htn]

/-- Witness for C4 (amended): the positive branch with the default budget 50
and one visited page, and the negative branch at the counterexample state. -/
theorem budget_truncation_witness :
    (scheduledSubcategories defaultConfig ["v1"] ["s1", "s2"] =
        (["s1", "s2"].take (defaultConfig.max_pages_per_domain - 1)).filter
          (fun u => u ∉ ["v1"]) ∧
      (scheduledSubcategories defaultConfig ["v1"] ["s1", "s2"]).length ≤
        defaultConfig.max_pages_per_domain - 1) ∧
    scheduledSubcategories cfgBudget ["v1", "v2", "v3"] ["s1", "s2", "s3"] =
      (["s1", "s2", "s3"].take 1).filter (fun u => u ∉ ["v1", "v2", "v3"]) :=
  ⟨(budget_truncation defaultConfig ["v1"] ["s1", "s2"]).1 (by decide),
   (budget_truncation cfgBudget ["v1", "v2", "v3"] ["s1", "s2", "s3"]).2 (by decide)⟩

/-- Claim C5: in every reachable traversal state, subcategory recursion is
invoked only from a parent at `depth < max_depth` and at child depth
`depth + 1` (so never at a depth above `max_depth`), while pagination
recursion is invoked at the parent's unchanged depth and is exempt from the
bound: in the concrete `max_depth = 0` run, the subcategory `/c/b` is never
visited while the pagination link `/c/a?page=2` is visited at depth 0. -/
theorem depth_bound :
    (∀ (pages : String → Option (List String)) (cfg : CrawlerConfig) (fuel : Nat)
        (domain url : String) (depth : Nat) (st : DomState) (e : Ev),
      e ∈ (crawl_category_pages pages cfg fuel domain url depth st).log →
      e ∈ st.log ∨ goodEv cfg e = true) ∧
    ("https://d.test/c/b" ∉ runC5.visited_categories ∧
     "https://d.test/c/a?page=2" ∈ runC5.visited_categories ∧
     Ev.recurse false "https://d.test/c/a?page=2" 0 0 ∈ runC5.log) := by
  constructor
  · intro pages cfg fuel domain url depth st e he
    obtain ⟨L, hl, hnodup, hfresh, hgood⟩ :=
      (extends_crawl pages cfg fuel domain url depth st).log_ext
    rw [hl, List.mem_append] at he
    rcases he with he | he
    · exact Or.inl he
    · exact Or.inr (hgood e he)
  · exact ⟨by decide, by decide, by decide⟩

/-- Witness for C5, at the pagination recursion event of the `max_depth = 0`
run. -/
theorem depth_bound_witness :
    Ev.recurse false "https://d.test/c/a?page=2" 0 0 ∈ st0.log ∨
      goodEv cfgDepth0 (Ev.recurse false "https://d.test/c/a?page=2" 0 0) = true :=
  depth_bound.1 pagesC5 cfgDepth0 10 "d.test" "https://d.test/c/a" 0 st0
    (Ev.recurse false "https://d.test/c/a?page=2" 0 0) (by decide)

/-- Claim C6 (counterexample): a URL can be fetched twice in one crawl run —
for the domain input `shop.test/c/x` (a full URL as domain), the base URL is
fetched once by `crawl_domain` (which marks nothing visited: the guard set
`visited_urls` stays empty) and a second time by category recursion, since
the base URL is itself category-classified and reachable as a link. -/
theorem dedup_cex :
    (fetches runC6.log).count "https://shop.test/c/x" = 2 ∧
    runC6.visited_urls = [] := by
  exact ⟨by decide, by decide⟩

/-- Claim C6 (amended): within `crawl_category_pages` (category and pagination
traversal) every URL is fetched at most once per crawl run — the visited-set
membership check precedes every fetch and the URL is marked visited before
its fetch is issued — but the root-page fetch of `crawl_domain` is guarded
only by the never-populated `visited_urls` and marks nothing, so the base URL
is not covered by the deduplication. -/
theorem crawl_fetch_at_most_once (pages : String → Option (List String)) (cfg : CrawlerConfig)
    (fuel : Nat) (domain url : String) (depth : Nat) (st : DomState) (hlog : st.log = []) :
    (fetches (crawl_category_pages pages cfg fuel domain url depth st).log).Nodup ∧
    ∀ u ∈ fetches (crawl_category_pages pages cfg fuel domain url depth st).log,
      u ∉ st.visited_categories ∧
      u ∈ (crawl_category_pages pages cfg fuel domain url depth st).visited_categories := by
  obtain ⟨L, hl, hnodup, hfresh, hgood⟩ :=
    (extends_crawl pages cfg fuel domain url depth st).log_ext
  rw [hl, hlog, List.nil_append]
  exact ⟨hnodup, hfresh⟩

/-- Witness for C6 (amended), on the `max_depth = 0` scenario run. -/
theorem crawl_fetch_at_most_once_witness :
    (fetches (crawl_category_pages pagesC5 cfgDepth0 10 "d.test" "https://d.test/c/a"
      0 st0).log).Nodup ∧
    ∀ u ∈ fetches (crawl_category_pages pagesC5 cfgDepth0 10 "d.test" "https://d.test/c/a"
      0 st0).log,
      u ∉ st0.visited_categories ∧
      u ∈ (crawl_category_pages pagesC5 cfgDepth0 10 "d.test" "https://d.test/c/a"
        0 st0).visited_categories :=
  crawl_fetch_at_most_once pagesC5 cfgDepth0 10 "d.test" "https://d.test/c/a" 0 st0 rfl

/-- Claim C7: a server answering 429 on three consecutive requests, with
`max_retries = 2` (the default), makes `fetch_url` perform exactly 2 retries
after the initial attempt — 3 requests in total — with backoff sleeps of
`2 ^ 0 = 1` second and `2 ^ 1 = 2` seconds, and then return absent. -/
theorem retry_backoff_429 :
    fetch_url defaultConfig (constStatus 429) 0 = (none, [1, 2], 3) := by
  simp [fetch_url, constStatus, defaultConfig]

/-- Claim C8: each classifier predicate is true iff the full URL string
matches at least one regular expression of the corresponding pattern list
(case-insensitively, via `regexSearch`); under the default patterns,
`/p/123` is product-classified, `/collections/shoes` is category-classified,
and `/collections/shoes?page=2` is category- and pagination-classified
simultaneously. -/
theorem classifier_independence :
    (∀ (cfg : CrawlerConfig) (url : String),
      (is_product_url cfg url = true ↔ ∃ p ∈ cfg.product_patterns, regexSearch p url = true) ∧
      (is_category_url cfg url = true ↔ ∃ p ∈ cfg.category_patterns, regexSearch p url = true) ∧
      (is_pagination_url cfg url = true ↔
        ∃ p ∈ cfg.pagination_patterns, regexSearch p url = true)) ∧
    is_product_url defaultConfig "https://shop.example.com/p/123" = true ∧
    is_category_url defaultConfig "https://shop.example.com/collections/shoes" = true ∧
    is_category_url defaultConfig "https://shop.example.com/collections/shoes?page=2" = true ∧
    is_pagination_url defaultConfig "https://shop.example.com/collections/shoes?page=2" = true := by
  refine ⟨?_, by decide, by decide, by decide, by decide⟩
  intro cfg url
  exact ⟨List.any_eq_true, List.any_eq_true, List.any_eq_true⟩

/-- Claim C9 (counterexample): the fetched root URL CAN end up in a visited
set — for the domain input `shop.test/c/x` the base URL is itself
category-classified and reachable as a link, so category recursion records it
in `visited_categories`. -/
theorem visited_urls_cex :
    ("https://" ++ normalizeDomain "shop.test/c/x") ∈ runC6.visited_categories := by
  decide

/-- Claim C9 (amended): `visited_urls[domain]` is empty in every reachable
state — no operation of the crawler ever adds to it (`crawl_domain` and
`crawl_category_pages` both leave it unchanged), so when a run starts with it
empty the early-return guard of `crawl_domain` never triggers; the root fetch
itself records the root URL in no visited set, though the root URL may still
enter `visited_categories` when it is reachable as a category-classified
link. -/
theorem visited_urls_invariant (pages : String → Option (List String)) (cfg : CrawlerConfig)
    (fuel : Nat) (domain0 url : String) (depth : Nat) (st : DomState) :
    (crawl_domain pages cfg fuel domain0 st).visited_urls = st.visited_urls ∧
    (crawl_category_pages pages cfg fuel domain0 url depth st).visited_urls
      = st.visited_urls ∧
    (st.visited_urls = [] → ("https://" ++ normalizeDomain domain0) ∉ st.visited_urls) := by
  refine ⟨crawl_domain_vurls pages cfg fuel domain0 st,
    (extends_crawl pages cfg fuel domain0 url depth st).vurls_eq, ?_⟩
  intro h
  rw [h]
  exact List.not_mem_nil _

/-- Witness for C9 (amended), on the end-to-end scenario run. -/
theorem visited_urls_invariant_witness :
    (crawl_domain pages1 defaultConfig 10 "shop.test" st0).visited_urls = st0.visited_urls ∧
    (crawl_category_pages pages1 defaultConfig 10 "shop.test" "https://shop.test/c/shoes"
      0 st0).visited_urls = st0.visited_urls ∧
    ("https://" ++ normalizeDomain "shop.test") ∉ st0.visited_urls :=
  have h := visited_urls_invariant pages1 defaultConfig 10 "shop.test"
    "https://shop.test/c/shoes" 0 st0
  ⟨h.1, h.2.1, h.2.2 rfl⟩

/-- Claim C10: under the default patterns, every URL containing `/p/` followed
by a digit is simultaneously product-classified (pattern `/p/`) and
pagination-classified (pattern `/p/(\d+)`); in the end-to-end run such a
product link (`https://shop.test/p/42`) is added to the product set AND
scheduled as a pagination crawl target, fetched, and marked visited. -/
theorem product_pagination_overlap :
    (∀ (a b : String) (c : Char), c.isDigit = true →
      is_product_url defaultConfig (a ++ "/p/" ++ String.mk [c] ++ b) = true ∧
      is_pagination_url defaultConfig (a ++ "/p/" ++ String.mk [c] ++ b) = true) ∧
    ("https://shop.test/p/42" ∈ runC1.product_urls ∧
     Ev.recurse false "https://shop.test/p/42" 0 0 ∈ runC1.log ∧
     Ev.fetch "https://shop.test/p/42" ∈ runC1.log ∧
     "https://shop.test/p/42" ∈ runC1.visited_categories) := by
  constructor
  · intro a b c hc
    constructor
    · rw [is_product_url]
      apply List.any_eq_true.mpr
      exact ⟨⟨lits "/p/", false⟩, by decide, search_product_pslash a b c⟩
    · rw [is_pagination_url]
      apply List.any_eq_true.mpr
      exact ⟨⟨lits "/p/" ++ [RElem.plus RTok.digit], false⟩, by decide,
        search_pagination_pslash a b c hc⟩
  · exact ⟨by decide, by decide, by decide, by decide⟩

/-- Witness for C10, at the concrete URL `https://shop.test/p/42`. -/
theorem product_pagination_overlap_witness :
    Char.isDigit '4' = true ∧
    is_product_url defaultConfig ("https://shop.test" ++ "/p/" ++ String.mk ['4'] ++ "2")
      = true ∧
    is_pagination_url defaultConfig ("https://shop.test" ++ "/p/" ++ String.mk ['4'] ++ "2")
      = true :=
  ⟨by decide,
   (product_pagination_overlap.1 "https://shop.test" "2" '4' (by decide)).1,
   (product_pagination_overlap.1 "https://shop.test" "2" '4' (by decide)).2⟩
